import Mathlib

/-!
Verification of the request authentication gate and the admin college
service of the collegecrtadminFE backend.

The middleware `AuthMiddleware.dispatch` (src/app/middleware/auth_middleware.py)
is embedded as a pure function from a request to an outcome, parameterised
over the external verification primitive `decode_access_token` (which lives
in `app.core.jwt`, outside the service code under verification; the gate is
generic in it, so it is modelled as a function argument).  Python exceptions
that escape the gate are modelled with `Except`: the value constructor holds
the gate's own decision (call the downstream handler, or answer with a JSON
rejection), the error constructor holds an uncaught Python exception.

`AdminCollegeService.delete_college` (src/app/services/admin/college_service.py)
is embedded over a database modelled as a list of college rows; the SQLAlchemy
`scalar(select ... where id == college_id)` returns the first matching row.
-/

namespace CollegeCRT

/-- A decoded JSON claim value, as produced by the verification primitive. -/
inductive Value where
  | vstr : String → Value
  | vint : Int → Value
  | vlist : List Value → Value
  | vnone : Value

/-- Python exceptions that the gate does not catch. -/
inductive PyExc where
  | valueError : PyExc
  | typeError : PyExc
  | other : String → PyExc
  deriving DecidableEq, Repr

/-- Errors raised by `decode_access_token`: the decode-specific `JWTError`
(caught by the gate) or any other exception (not caught). -/
inductive DecodeErr where
  | jwtError : DecodeErr
  | exc : PyExc → DecodeErr
  deriving DecidableEq, Repr

/-- The decoded claims mapping (a Python dict): keys are unique. -/
abbrev Payload := List (String × Value)

/-- `payload.get(k)`: first binding of the key, if any. -/
def pget (p : Payload) (k : String) : Option Value :=
  (p.find? (fun kv => kv.1 = k)).map (fun kv => kv.2)

/-- `payload.get(k, d)`: lookup with a default. -/
def pgetD (p : Payload) (k : String) (d : Value) : Value :=
  (pget p k).getD d

/-- Body of a Python integer literal after the first digit: digits with
single underscores allowed between digits. -/
def pyDigitsRest : List Char → Bool
  | [] => true
  | ['_'] => false
  | '_' :: c :: cs => c.isDigit && pyDigitsRest cs
  | c :: cs => c.isDigit && pyDigitsRest cs

/-- A valid Python decimal integer body: at least one digit, underscores
only between digits. -/
def pyIntBody : List Char → Bool
  | [] => false
  | c :: cs => c.isDigit && pyDigitsRest cs

/-- Decimal value of a digit-and-underscore string (underscores skipped). -/
def digitsVal (cs : List Char) : Int :=
  cs.foldl (fun a c => if c = '_' then a else a * 10 + (c.toNat - 48 : Int)) 0

/-- Python `int(s)` on a string: strip surrounding whitespace, optional
sign, then a decimal body; otherwise `ValueError`. -/
def pyIntOfStr (s : String) : Except PyExc Int :=
  let cs := ((s.data.dropWhile Char.isWhitespace).reverse.dropWhile
      Char.isWhitespace).reverse
  match cs with
  | '+' :: rest =>
      if pyIntBody rest then .ok (digitsVal rest) else .error .valueError
  | '-' :: rest =>
      if pyIntBody rest then .ok (-(digitsVal rest)) else .error .valueError
  | rest =>
      if pyIntBody rest then .ok (digitsVal rest) else .error .valueError

/-- Python `int(v)` on a claim value: ints pass through, strings are
parsed, anything else raises `TypeError` (`int(None)`, `int(list)`). -/
def pyInt : Value → Except PyExc Int
  | .vint n => .ok n
  | .vstr s => pyIntOfStr s
  | .vlist _ => .error .typeError
  | .vnone => .error .typeError

/-- An inbound HTTP request as the gate reads it: method, URL path and the
`Authorization` header (absent or its exact string value). -/
structure Request where
  method : String
  path : String
  authorization : Option String
  deriving DecidableEq, Repr

/-- The identity context the gate attaches as `request.state.user`. -/
structure Identity where
  id : Int
  role : Value
  permissions : Value

/-- The gate's decision: forward to the downstream handler (with the
identity attached, when any), or answer with a JSON rejection. -/
inductive Outcome where
  | next : Option Identity → Outcome
  | reject : Nat → String → Outcome

/-- The fixed allow-list `PUBLIC_PATHS` of the middleware module. -/
def PUBLIC_PATHS : List String :=
  ["/api/auth", "/docs", "/redoc", "/openapi.json", "/health"]

/-- Python `s.startswith(p)`: `p` is a prefix of `s` (character-wise). -/
def pyStartsWith (s p : String) : Bool :=
  List.isPrefixOf p.data s.data

/-- Python `s.split(" ", 1)`: split at the first space only. -/
def splitOnceSpace (s : String) : List String :=
  match s.data.findIdx? (fun c => c = ' ') with
  | none => [s]
  | some i => [⟨s.data.take i⟩, ⟨s.data.drop (i + 1)⟩]

/-- `auth_header.split(" ", 1)[1]`.  The gate only evaluates this after
checking `auth_header.startswith("Bearer ")`, so the list has two
elements; the default covers the unreachable branch. -/
def tokenOf (h : String) : String :=
  (splitOnceSpace h).getD 1 ""

/-- `AuthMiddleware.dispatch`, parameterised over `decode_access_token`.
`Except.ok` is the gate's own response path; `Except.error` is a Python
exception escaping the gate uncaught. -/
def dispatch (decode : String → Except DecodeErr Payload)
    (req : Request) : Except PyExc Outcome :=
  if req.method = "OPTIONS" then
    .ok (.next none)
  else if PUBLIC_PATHS.any (fun p => pyStartsWith req.path p) then
    .ok (.next none)
  else
    match req.authorization with
    | none => .ok (.reject 401 "Authentication required")
    | some h =>
      if h = "" || !pyStartsWith h "Bearer " then
        .ok (.reject 401 "Authentication required")
      else
        match decode (tokenOf h) with
        | .error .jwtError => .ok (.reject 401 "Invalid or expired token")
        | .error (.exc e) => .error e
        | .ok payload =>
          if List.isEmpty payload || (pget payload "sub").isNone then
            .ok (.reject 401 "Invalid token payload")
          else
            match pyInt (pgetD payload "sub" .vnone) with
            | .error e => .error e
            | .ok n =>
              .ok (.next (some
                { id := n
                  role := pgetD payload "role" (.vstr "USER")
                  permissions := pgetD payload "permissions" (.vlist []) }))

/-!
## Admin college service

Embedding of `AdminCollegeService` over a database modelled as a list of
college rows.  `db.scalar(select(College).where(College.id == id))`
returns the first row with that id, or none.
-/

/-- A row of the `College` table (fields as constructed by
`create_college`). -/
structure College where
  id : Nat
  name : String
  code : String
  description : String
  email : String
  phone : String
  website : String
  city : String
  state : String
  country : String
  established_year : Nat
  is_active : Bool
  deriving DecidableEq, Repr

/-- The college table: a list of rows. -/
abbrev DB := List College

/-- An `HTTPException` as raised by the service. -/
structure HttpError where
  status_code : Nat
  detail : String
  deriving DecidableEq, Repr

/-- `get_college`: `db.scalar(select(College).where(College.id == college_id))`,
the first row with the given id. -/
def get_college (db : DB) (college_id : Nat) : Option College :=
  List.find? (fun c => c.id = college_id) db

/-- Set `is_active = False` on the first row with the given id (the row
object returned by `get_college` is the one mutated). -/
def setInactiveFirst : DB → Nat → DB
  | [], _ => []
  | c :: rest, college_id =>
      if c.id = college_id then { c with is_active := false } :: rest
      else c :: setInactiveFirst rest college_id

/-- `delete_college` (soft delete): 404 when the college is absent or
already inactive (database unchanged), otherwise flip its `is_active`
flag to `False` and commit.  The returned pair is (HTTP result,
resulting database state). -/
def delete_college (db : DB) (college_id : Nat) :
    Except HttpError Unit × DB :=
  match get_college db college_id with
  | none => (.error ⟨404, "College not found"⟩, db)
  | some college =>
      if !college.is_active then (.error ⟨404, "College not found"⟩, db)
      else (.ok (), setInactiveFirst db college_id)

/-!
## Helper lemmas
-/

theorem pyStartsWith_ne_empty {h : String}
    (hb : pyStartsWith h "Bearer " = true) : h ≠ "" := by
  intro he
  subst he
  simp [pyStartsWith, List.isPrefixOf] at hb

theorem data_bearer_append (t : String) :
    ("Bearer " ++ t).data =
      'B' :: 'e' :: 'a' :: 'r' :: 'e' :: 'r' :: ' ' :: t.data := by
  cases t with
  | mk d => rfl

theorem tokenOf_bearer (t : String) : tokenOf ("Bearer " ++ t) = t := by
  unfold tokenOf splitOnceSpace
  rw [data_bearer_append]
  simp [List.findIdx?_cons]

theorem pyStartsWith_bearer_append (t : String) :
    pyStartsWith ("Bearer " ++ t) "Bearer " = true := by
  unfold pyStartsWith
  rw [data_bearer_append]
  simp [List.isPrefixOf]

/-- Unfolding of `dispatch` for a protected request carrying a
Bearer-scheme header. -/
theorem dispatch_bearer (decode : String → Except DecodeErr Payload)
    (req : Request) (h : String)
    (hm : ¬ req.method = "OPTIONS")
    (hp : PUBLIC_PATHS.any (fun p => pyStartsWith req.path p) = false)
    (ha : req.authorization = some h)
    (hb : pyStartsWith h "Bearer " = true) :
    dispatch decode req =
      match decode (tokenOf h) with
      | .error .jwtError => .ok (.reject 401 "Invalid or expired token")
      | .error (.exc e) => .error e
      | .ok payload =>
        if List.isEmpty payload || (pget payload "sub").isNone then
          .ok (.reject 401 "Invalid token payload")
        else
          match pyInt (pgetD payload "sub" .vnone) with
          | .error e => .error e
          | .ok n =>
            .ok (.next (some
              { id := n
                role := pgetD payload "role" (.vstr "USER")
                permissions := pgetD payload "permissions" (.vlist []) })) := by
  have hne : h ≠ "" := pyStartsWith_ne_empty hb
  simp [dispatch, hm, hp, ha, hb, hne]

/-!
## Claim theorems
-/

/-- C7: every request whose method is OPTIONS is forwarded to the
downstream handler unconditionally, with no identity attached, whatever
the path, the Authorization header and the verification primitive. -/
theorem dispatch_options_bypass (decode : String → Except DecodeErr Payload)
    (req : Request) (hm : req.method = "OPTIONS") :
    dispatch decode req = .ok (.next none) := by
  simp [dispatch, hm]

/-- C7 witness: a concrete OPTIONS request with a garbage header on a
protected path is forwarded even though the decoder always fails. -/
theorem dispatch_options_bypass_witness :
    dispatch (fun _ => .error .jwtError)
      { method := "OPTIONS", path := "/api/admin/colleges",
        authorization := some "garbage" } = .ok (.next none) :=
  dispatch_options_bypass _ _ rfl

/-- C3: public-path classification is prefix-based over the fixed
allow-list: every non-OPTIONS request whose path starts with an
allow-listed entry is forwarded with no identity, regardless of the
Authorization header and of the verification primitive. -/
theorem dispatch_public_bypass (decode : String → Except DecodeErr Payload)
    (req : Request) (hm : ¬ req.method = "OPTIONS")
    (hp : ∃ p ∈ PUBLIC_PATHS, pyStartsWith req.path p = true) :
    dispatch decode req = .ok (.next none) := by
  have hany : PUBLIC_PATHS.any (fun p => pyStartsWith req.path p) = true := by
    rcases hp with ⟨p, hmem, hsw⟩
    exact List.any_eq_true.mpr ⟨p, hmem, hsw⟩
  simp [dispatch, hm, hany]

/-- C3 witness: the path "/api/auth/refresh" starts with the allow-listed
entry "/api/auth", so the request is forwarded with no identity even with
a garbage Authorization header and an always-failing decoder. -/
theorem dispatch_public_bypass_witness :
    ("/api/auth" ∈ PUBLIC_PATHS ∧
      pyStartsWith "/api/auth/refresh" "/api/auth" = true) ∧
    dispatch (fun _ => .error .jwtError)
      { method := "GET", path := "/api/auth/refresh",
        authorization := some "garbage" } = .ok (.next none) :=
  ⟨⟨by simp [PUBLIC_PATHS], rfl⟩,
    dispatch_public_bypass _ _ (by simp)
      ⟨"/api/auth", by simp [PUBLIC_PATHS], rfl⟩⟩

/-- C5: every protected (non-OPTIONS, non-public-path) request whose
Authorization header is absent, or does not start with "Bearer ", is
rejected with 401 "Authentication required"; the downstream handler
never runs. -/
theorem dispatch_auth_required (decode : String → Except DecodeErr Payload)
    (req : Request) (hm : ¬ req.method = "OPTIONS")
    (hp : PUBLIC_PATHS.any (fun p => pyStartsWith req.path p) = false)
    (ha : req.authorization = none ∨
      ∃ h, req.authorization = some h ∧ pyStartsWith h "Bearer " = false) :
    dispatch decode req = .ok (.reject 401 "Authentication required") := by
  rcases ha with ha | ⟨h, ha, hb⟩
  · simp [dispatch, hm, hp, ha]
  · simp [dispatch, hm, hp, ha, hb]

/-- C5 witness: a protected request with no Authorization header, and one
with a "Basic" scheme header, are both rejected with 401
"Authentication required". -/
theorem dispatch_auth_required_witness :
    dispatch (fun _ => .ok [("sub", .vstr "1")])
      { method := "GET", path := "/api/admin/colleges",
        authorization := none } =
      .ok (.reject 401 "Authentication required") ∧
    dispatch (fun _ => .ok [("sub", .vstr "1")])
      { method := "GET", path := "/api/admin/colleges",
        authorization := some "Basic abc" } =
      .ok (.reject 401 "Authentication required") :=
  ⟨dispatch_auth_required _ _ (by simp) (by simp [PUBLIC_PATHS, pyStartsWith,
      List.isPrefixOf]) (Or.inl rfl),
    dispatch_auth_required _ _ (by simp) (by simp [PUBLIC_PATHS, pyStartsWith,
      List.isPrefixOf]) (Or.inr ⟨"Basic abc", rfl, rfl⟩)⟩

/-- C1: the gate catches verification failures narrowly — a `JWTError`
from `decode_access_token` yields 401 "Invalid or expired token", while
any other exception from the primitive propagates out of the gate
unchanged and is never converted into a 401 response. -/
theorem dispatch_narrow_catch (decode : String → Except DecodeErr Payload)
    (req : Request) (h : String)
    (hm : ¬ req.method = "OPTIONS")
    (hp : PUBLIC_PATHS.any (fun p => pyStartsWith req.path p) = false)
    (ha : req.authorization = some h)
    (hb : pyStartsWith h "Bearer " = true) :
    (decode (tokenOf h) = .error .jwtError →
      dispatch decode req = .ok (.reject 401 "Invalid or expired token")) ∧
    (∀ e, decode (tokenOf h) = .error (.exc e) →
      dispatch decode req = .error e) := by
  rw [dispatch_bearer decode req h hm hp ha hb]
  constructor
  · intro hd
    rw [hd]
  · intro e hd
    rw [hd]

/-- C1 witness: a concrete protected request rejected with 401 when the
decoder raises `JWTError`, and the same request propagating a keystore
exception unchanged when the decoder raises a non-`JWTError`. -/
theorem dispatch_narrow_catch_witness :
    dispatch (fun _ => .error .jwtError)
      { method := "GET", path := "/api/admin/colleges",
        authorization := some "Bearer tok" } =
      .ok (.reject 401 "Invalid or expired token") ∧
    dispatch (fun _ => .error (.exc (.other "keystore unavailable")))
      { method := "GET", path := "/api/admin/colleges",
        authorization := some "Bearer tok" } =
      .error (.other "keystore unavailable") :=
  ⟨(dispatch_narrow_catch (fun _ => .error .jwtError)
      { method := "GET", path := "/api/admin/colleges",
        authorization := some "Bearer tok" }
      "Bearer tok" (by simp) rfl rfl rfl).1 rfl,
    (dispatch_narrow_catch (fun _ => .error (.exc (.other "keystore unavailable")))
      { method := "GET", path := "/api/admin/colleges",
        authorization := some "Bearer tok" }
      "Bearer tok" (by simp) rfl rfl rfl).2
      (.other "keystore unavailable") rfl⟩

/-- C6: a protected request whose token decodes to an empty claims
mapping, or to one without a "sub" key, is rejected with 401
"Invalid token payload"; no identity is attached. -/
theorem dispatch_invalid_payload (decode : String → Except DecodeErr Payload)
    (req : Request) (h : String) (payload : Payload)
    (hm : ¬ req.method = "OPTIONS")
    (hp : PUBLIC_PATHS.any (fun p => pyStartsWith req.path p) = false)
    (ha : req.authorization = some h)
    (hb : pyStartsWith h "Bearer " = true)
    (hd : decode (tokenOf h) = .ok payload)
    (hshape : payload = ([] : Payload) ∨ pget payload "sub" = none) :
    dispatch decode req = .ok (.reject 401 "Invalid token payload") := by
  rw [dispatch_bearer decode req h hm hp ha hb, hd]
  rcases hshape with h1 | h1
  · subst h1
    rfl
  · simp [h1]

/-- C6 witness: concrete protected requests whose tokens decode to an
empty mapping and to a mapping without "sub" are both rejected with 401
"Invalid token payload". -/
theorem dispatch_invalid_payload_witness :
    dispatch (fun _ => .ok [])
      { method := "GET", path := "/api/admin/colleges",
        authorization := some "Bearer tok" } =
      .ok (.reject 401 "Invalid token payload") ∧
    dispatch (fun _ => .ok [("role", .vstr "ADMIN")])
      { method := "GET", path := "/api/admin/colleges",
        authorization := some "Bearer tok" } =
      .ok (.reject 401 "Invalid token payload") :=
  ⟨dispatch_invalid_payload (fun _ => .ok [])
      { method := "GET", path := "/api/admin/colleges",
        authorization := some "Bearer tok" }
      "Bearer tok" [] (by simp) rfl rfl rfl rfl (Or.inl rfl),
    dispatch_invalid_payload (fun _ => .ok [("role", .vstr "ADMIN")])
      { method := "GET", path := "/api/admin/colleges",
        authorization := some "Bearer tok" }
      "Bearer tok" [("role", .vstr "ADMIN")]
      (by simp) rfl rfl rfl rfl (Or.inr rfl)⟩

/-- C2: for a protected request whose token decodes to claims containing
a subject claim whose value converts to an integer, the gate forwards the
request with identity { id := that integer, role := the claims' role
value or "USER" when absent, permissions := the claims' permissions value
or the empty list when absent }. -/
theorem dispatch_identity_construction
    (decode : String → Except DecodeErr Payload)
    (req : Request) (h : String) (payload : Payload) (v : Value) (n : Int)
    (hm : ¬ req.method = "OPTIONS")
    (hp : PUBLIC_PATHS.any (fun p => pyStartsWith req.path p) = false)
    (ha : req.authorization = some h)
    (hb : pyStartsWith h "Bearer " = true)
    (hd : decode (tokenOf h) = .ok payload)
    (hs : pget payload "sub" = some v)
    (hn : pyInt v = .ok n) :
    dispatch decode req = .ok (.next (some
      { id := n
        role := pgetD payload "role" (.vstr "USER")
        permissions := pgetD payload "permissions" (.vlist []) })) := by
  rw [dispatch_bearer decode req h hm hp ha hb, hd]
  have hne : List.isEmpty payload = false := by
    cases payload with
    | nil => simp [pget] at hs
    | cons a l => rfl
  have hgd : pgetD payload "sub" .vnone = v := by simp [pgetD, hs]
  simp [hne, hs, hgd, hn]

/-- C2 witness: claims with sub "42", role "ADMIN", permissions ["x"]
yield identity (42, "ADMIN", ["x"]); claims with only sub "7" yield
identity (7, "USER", []). -/
theorem dispatch_identity_construction_witness :
    dispatch (fun _ => .ok [("sub", .vstr "42"), ("role", .vstr "ADMIN"),
        ("permissions", .vlist [.vstr "x"])])
      { method := "GET", path := "/api/admin/colleges",
        authorization := some "Bearer tok" } =
      .ok (.next (some ⟨42, .vstr "ADMIN", .vlist [.vstr "x"]⟩)) ∧
    dispatch (fun _ => .ok [("sub", .vstr "7")])
      { method := "GET", path := "/api/admin/colleges",
        authorization := some "Bearer tok" } =
      .ok (.next (some ⟨7, .vstr "USER", .vlist []⟩)) :=
  ⟨dispatch_identity_construction
      (fun _ => .ok [("sub", .vstr "42"), ("role", .vstr "ADMIN"),
        ("permissions", .vlist [.vstr "x"])])
      { method := "GET", path := "/api/admin/colleges",
        authorization := some "Bearer tok" }
      "Bearer tok" _ (.vstr "42") 42 (by simp) rfl rfl rfl rfl rfl rfl,
    dispatch_identity_construction (fun _ => .ok [("sub", .vstr "7")])
      { method := "GET", path := "/api/admin/colleges",
        authorization := some "Bearer tok" }
      "Bearer tok" _ (.vstr "7") 7 (by simp) rfl rfl rfl rfl rfl rfl⟩

/-- C4: when the identity context exists its subject id is the integer
value of the subject claim — a missing subject claim rejects the request
with 401 "Invalid token payload", a non-numeric one raises the conversion
error out of the gate, and every forwarded identity carries the converted
subject value; no default is ever substituted. -/
theorem dispatch_subject_id_strict (decode : String → Except DecodeErr Payload)
    (req : Request) (h : String) (payload : Payload)
    (hm : ¬ req.method = "OPTIONS")
    (hp : PUBLIC_PATHS.any (fun p => pyStartsWith req.path p) = false)
    (ha : req.authorization = some h)
    (hb : pyStartsWith h "Bearer " = true)
    (hd : decode (tokenOf h) = .ok payload) :
    (pget payload "sub" = none →
      dispatch decode req = .ok (.reject 401 "Invalid token payload")) ∧
    (∀ v e, pget payload "sub" = some v → pyInt v = .error e →
      dispatch decode req = .error e) ∧
    (∀ ident, dispatch decode req = .ok (.next (some ident)) →
      ∃ v, pget payload "sub" = some v ∧ pyInt v = .ok ident.id) := by
  rw [dispatch_bearer decode req h hm hp ha hb, hd]
  refine ⟨?_, ?_, ?_⟩
  · intro hs
    simp [hs]
  · intro v e hs he
    have hne : List.isEmpty payload = false := by
      cases payload with
      | nil => simp [pget] at hs
      | cons a l => rfl
    have hgd : pgetD payload "sub" .vnone = v := by simp [pgetD, hs]
    simp [hne, hs, hgd, he]
  · intro ident hI
    cases hs : pget payload "sub" with
    | none =>
      simp [hs] at hI
    | some v =>
      have hne : List.isEmpty payload = false := by
        cases payload with
        | nil => simp [pget] at hs
        | cons a l => rfl
      have hgd : pgetD payload "sub" .vnone = v := by simp [pgetD, hs]
      refine ⟨v, rfl, ?_⟩
      simp [hne, hs, hgd] at hI
      cases hv : pyInt v with
      | error e => simp [hv] at hI
      | ok n =>
        simp [hv] at hI
        subst hI
        rfl

/-- C4 witness: a decoded payload without "sub" is rejected with 401
"Invalid token payload", and one whose "sub" is the non-numeric string
"abc" makes the conversion error escape the gate. -/
theorem dispatch_subject_id_strict_witness :
    dispatch (fun _ => .ok [("role", .vstr "ADMIN")])
      { method := "GET", path := "/api/admin/colleges",
        authorization := some "Bearer tok" } =
      .ok (.reject 401 "Invalid token payload") ∧
    dispatch (fun _ => .ok [("sub", .vstr "abc")])
      { method := "GET", path := "/api/admin/colleges",
        authorization := some "Bearer tok" } = .error .valueError :=
  ⟨(dispatch_subject_id_strict (fun _ => .ok [("role", .vstr "ADMIN")])
      { method := "GET", path := "/api/admin/colleges",
        authorization := some "Bearer tok" }
      "Bearer tok" [("role", .vstr "ADMIN")]
      (by simp) rfl rfl rfl rfl).1 rfl,
    (dispatch_subject_id_strict (fun _ => .ok [("sub", .vstr "abc")])
      { method := "GET", path := "/api/admin/colleges",
        authorization := some "Bearer tok" }
      "Bearer tok" [("sub", .vstr "abc")]
      (by simp) rfl rfl rfl rfl).2.1 (.vstr "abc") .valueError rfl rfl⟩

/-- C8: token extraction is verbatim — for a header "Bearer " followed by
any string t (possibly empty or containing further spaces), the extracted
token is exactly t, and the gate hands exactly t to the verification
primitive (observed here by a primitive that raises an exception carrying
its argument, which escapes the gate unchanged). -/
theorem dispatch_token_verbatim (t : String) (req : Request)
    (hm : ¬ req.method = "OPTIONS")
    (hp : PUBLIC_PATHS.any (fun p => pyStartsWith req.path p) = false)
    (ha : req.authorization = some ("Bearer " ++ t)) :
    tokenOf ("Bearer " ++ t) = t ∧
    dispatch (fun s => .error (.exc (.other s))) req = .error (.other t) := by
  refine ⟨tokenOf_bearer t, ?_⟩
  rw [dispatch_bearer _ req ("Bearer " ++ t) hm hp ha
      (pyStartsWith_bearer_append t), tokenOf_bearer t]

/-- C8 witness: the header "Bearer a b c" passes exactly "a b c" to the
primitive, and the header "Bearer " (empty token) passes exactly "". -/
theorem dispatch_token_verbatim_witness :
    (tokenOf "Bearer a b c" = "a b c" ∧
      dispatch (fun s => .error (.exc (.other s)))
        { method := "GET", path := "/api/admin/colleges",
          authorization := some "Bearer a b c" } =
        .error (.other "a b c")) ∧
    (tokenOf "Bearer " = "" ∧
      dispatch (fun s => .error (.exc (.other s)))
        { method := "GET", path := "/api/admin/colleges",
          authorization := some "Bearer " } = .error (.other "")) :=
  ⟨dispatch_token_verbatim "a b c"
      { method := "GET", path := "/api/admin/colleges",
        authorization := some "Bearer a b c" } (by simp) rfl rfl,
    dispatch_token_verbatim ""
      { method := "GET", path := "/api/admin/colleges",
        authorization := some "Bearer " } (by simp) rfl rfl⟩

/-- C9: gate evaluation is deterministic and idempotent — with the
verification primitive behaving identically on both runs, evaluating the
gate on an unmodified clone of a request yields the same decision,
status, message and identity contents. -/
theorem dispatch_deterministic (decode : String → Except DecodeErr Payload)
    (req₁ req₂ : Request) (h : req₁ = req₂) :
    dispatch decode req₁ = dispatch decode req₂ := by
  rw [h]

/-- C9 witness: determinism at a concrete protected request. -/
theorem dispatch_deterministic_witness :
    dispatch (fun _ => .ok [("sub", .vstr "7")])
      { method := "GET", path := "/x", authorization := some "Bearer t" } =
    dispatch (fun _ => .ok [("sub", .vstr "7")])
      { method := "GET", path := "/x", authorization := some "Bearer t" } :=
  dispatch_deterministic _ _ _ rfl

theorem get_college_append_first (pre suf : DB) (c : College) (cid : Nat)
    (hpre : ∀ x ∈ pre, x.id ≠ cid) (hc : c.id = cid) :
    get_college (pre ++ c :: suf) cid = some c := by
  induction pre with
  | nil => simp [get_college, List.find?_cons, hc]
  | cons a l ih =>
    have ha : a.id ≠ cid := hpre a (by simp)
    have hl : ∀ x ∈ l, x.id ≠ cid := fun x hx => hpre x (by simp [hx])
    simpa [get_college, List.find?_cons, ha] using ih hl

theorem setInactiveFirst_append (pre suf : DB) (c : College) (cid : Nat)
    (hpre : ∀ x ∈ pre, x.id ≠ cid) (hc : c.id = cid) :
    setInactiveFirst (pre ++ c :: suf) cid =
      pre ++ { c with is_active := false } :: suf := by
  induction pre with
  | nil => simp [setInactiveFirst, hc]
  | cons a l ih =>
    have ha : a.id ≠ cid := hpre a (by simp)
    have hl : ∀ x ∈ l, x.id ≠ cid := fun x hx => hpre x (by simp [hx])
    simp [setInactiveFirst, ha, ih hl]

theorem get_college_setInactiveFirst (db : DB) (cid : Nat) (c : College)
    (h : get_college db cid = some c) :
    get_college (setInactiveFirst db cid) cid =
      some { c with is_active := false } := by
  induction db with
  | nil => simp [get_college] at h
  | cons a l ih =>
    by_cases ha : a.id = cid
    · have hac : a = c := by
        simpa [get_college, List.find?_cons, ha] using h
      subst hac
      simp [get_college, setInactiveFirst, List.find?_cons, ha]
    · have h' : get_college l cid = some c := by
        simpa [get_college, List.find?_cons, ha] using h
      simpa [get_college, setInactiveFirst, List.find?_cons, ha] using ih h'

/-- C10: `delete_college` modifies only the `is_active` flag — deleting an
existing active college flips that college's `is_active` to false and
leaves its other fields and every other row unchanged; an absent id or an
already-inactive college raises 404 "College not found" with the database
unchanged; consequently a second delete of the same college yields 404. -/
theorem delete_college_props (college_id : Nat) :
    (∀ pre suf (c : College), (∀ x ∈ pre, x.id ≠ college_id) →
      c.id = college_id → c.is_active = true →
      delete_college (pre ++ c :: suf) college_id =
        (.ok (), pre ++ { c with is_active := false } :: suf)) ∧
    (∀ db : DB, (get_college db college_id = none ∨
        ∃ c, get_college db college_id = some c ∧ c.is_active = false) →
      delete_college db college_id =
        (.error ⟨404, "College not found"⟩, db)) ∧
    (∀ db db' : DB, delete_college db college_id = (.ok (), db') →
      delete_college db' college_id =
        (.error ⟨404, "College not found"⟩, db')) := by
  refine ⟨?_, ?_, ?_⟩
  · intro pre suf c hpre hc hact
    simp [delete_college, get_college_append_first pre suf c college_id hpre hc,
      hact, setInactiveFirst_append pre suf c college_id hpre hc]
  · intro db hdb
    rcases hdb with h | ⟨c, hg, hact⟩
    · simp [delete_college, h]
    · simp [delete_college, hg, hact]
  · intro db db' hdel
    cases hg : get_college db college_id with
    | none => simp [delete_college, hg] at hdel
    | some c =>
      cases hact : c.is_active with
      | false => simp [delete_college, hg, hact] at hdel
      | true =>
        simp [delete_college, hg, hact] at hdel
        have hdb' : db' = setInactiveFirst db college_id := hdel.symm
        subst hdb'
        simp [delete_college, get_college_setInactiveFirst db college_id c hg]

/-- C10 witness: deleting a concrete active college flips exactly its
`is_active` flag, and deleting it a second time yields 404 with the
database unchanged. -/
theorem delete_college_props_witness :
    delete_college
        [⟨1, "n", "c", "d", "e", "p", "w", "ci", "st", "co", 2000, true⟩] 1 =
      (.ok (),
        [⟨1, "n", "c", "d", "e", "p", "w", "ci", "st", "co", 2000, false⟩]) ∧
    delete_college
        [⟨1, "n", "c", "d", "e", "p", "w", "ci", "st", "co", 2000, false⟩] 1 =
      (.error ⟨404, "College not found"⟩,
        [⟨1, "n", "c", "d", "e", "p", "w", "ci", "st", "co", 2000, false⟩]) :=
  ⟨(delete_college_props 1).1 [] []
      ⟨1, "n", "c", "d", "e", "p", "w", "ci", "st", "co", 2000, true⟩
      (by simp) rfl rfl,
    (delete_college_props 1).2.2
      [⟨1, "n", "c", "d", "e", "p", "w", "ci", "st", "co", 2000, true⟩]
      [⟨1, "n", "c", "d", "e", "p", "w", "ci", "st", "co", 2000, false⟩] rfl⟩

end CollegeCRT
